import Mathlib

/-!
Verification of handle_create_pdf.py (RockefellerArchiveCenter/create_pdf).

The module is embedded shallowly: the guard-marker directory is a list of
marker names, each transaction root is described by the entries of its
master_edited and master subdirectories, Python exceptions become an error
type, and every external call (HTTP, OCR, object storage, filesystem) is
recorded as an event in a trace so that ordering and omission of calls can
be stated.  Name resolution of the module is embedded explicitly because
the source refers to a name (PDFWriter) that is neither defined nor
imported, and attribute lookup on AeonClient is embedded explicitly because
the source calls a method (post) that the class does not define.
-/

namespace CreatePdf

/-- Python exceptions that the embedded code can raise. -/
inductive PyErr
  | nameError (n : String)
  | attributeError (attr : String)
  | typeError (msg : String)
  | fileNotFoundError (p : String)
  | keyError (k : String)
  | extractionError (p : String)
  | publishError (p : String)
  deriving DecidableEq

/-- Observable external effects of the pipeline, in the order they are
performed: HTTP calls of the AeonClient session, filesystem operations on
guard markers and output directories, OCR extraction, object-storage
uploads, document-assembler appends and the final document write, and log
lines written by the handler. -/
inductive Ev
  | httpGet (url : String)
  | httpPost (url : String) (newStatus : String)
  | touch (tn : String)
  | unlink (tn : String)
  | mkdir (p : String)
  | extract (page : String)
  | upload (page : String)
  | append (page : String)
  | pdfWrite (tn : String)
  | logError (msg : String)
  deriving DecidableEq

/-- Names bound at module level in handle_create_pdf.py: the imports of
lines 3 to 9 and the definitions of lines 11 to 32.  The name PDFWriter
used on line 69 is not among them and is not a Python builtin. -/
def moduleNames : List String :=
  ["logging", "getenv", "Path", "Session", "boto3", "Textractor",
   "logger", "AlreadyProcessingError", "AeonClient", "PdfCreator"]

/-- Whether a global name lookup in the module succeeds. -/
def resolvesInModule (n : String) : Bool := decide (n ∈ moduleNames)

/-- Attributes available on an AeonClient instance: the fields set in
AeonClient.__init__ (lines 19 to 26) and its single method get (line 28).
There is no post method. -/
def aeonClientAttrs : List String := ["session", "baseurl", "get"]

/-- Whether attribute lookup of post on an AeonClient instance succeeds. -/
def aeonClientHasPost : Bool := decide ("post" ∈ aeonClientAttrs)

/-- AeonClient.__init__ (line 19) takes exactly two required positional
arguments, baseurl and access_key; any other argument count raises
TypeError. -/
def aeonClientInit (args : List String) : Except PyErr Unit :=
  if args.length = 2 then Except.ok ()
  else Except.error (PyErr.typeError
    "AeonClient.__init__ missing required positional arguments: baseurl and access_key")

/-- Contents of a transaction root directory: whether each of the
master_edited and master subdirectories exists, and the entry names each
one contains. -/
structure TransactionDirs where
  masterEditedIsDir : Bool
  masterEditedEntries : List String
  masterIsDir : Bool
  masterEntries : List String
  deriving DecidableEq

/-- A transaction record as returned by the tracking service: a dictionary
given as key/value pairs, later pairs overriding earlier ones. -/
abbrev Tx := List (String × String)

/-- The environment of one run: which transaction root directories exist,
the directory contents per transaction, the outcome of each OCR call and
each upload, the configured status codes, and the batch the tracking
service returns. -/
structure Env where
  rootDirExists : String → Bool
  dirs : String → TransactionDirs
  extractOutcome : String → Except PyErr String
  uploadOk : String → Bool
  sourceStatus : String
  destinationStatus : String
  fetched : List Tx

/-- Suffix test on character lists, used to embed the glob pattern. -/
def charListEndsWith (l suffix : List Char) : Bool :=
  decide (suffix.length ≤ l.length) &&
    decide (l.drop (l.length - suffix.length) = suffix)

/-- A directory entry matches the glob pattern star dot tiff exactly when
its name ends in the extension. -/
def matchesTiff (name : String) : Bool := charListEndsWith name.data ".tiff".data

/-- Python str.lower on the characters of a string. -/
def strLower (s : String) : String := String.mk (s.data.map Char.toLower)

/-- Lookup in a Python dict built from key/value pairs: the last pair with
the key wins; a missing key gives none, which the caller treats as
KeyError. -/
def lookupDict (d : List (String × String)) (k : String) : Option String :=
  match (d.filter (fun kv => decide (kv.1 = k))).getLast? with
  | none => none
  | some kv => some kv.2

/-- Lines 44 and 45: lowercase every key of the record, then look up
transactionnumber. -/
def txNumber (tx : Tx) : Option String :=
  lookupDict (tx.map (fun kv => (strLower kv.1, kv.2))) "transactionnumber"

/-- Result of pathlib Path.touch. -/
inductive TouchOutcome
  | ok
  | fileExists
  deriving DecidableEq

/-- pathlib Path.touch: when exist_ok holds (the default), touching an
existing file merely updates its mtime and returns; FileExistsError is
raised only when exist_ok is false and the file already exists. -/
def pathTouch (exist_ok : Bool) (markers : List String) (name : String) :
    TouchOutcome × List String :=
  if name ∈ markers then
    if exist_ok then (TouchOutcome.ok, markers)
    else (TouchOutcome.fileExists, markers)
  else (TouchOutcome.ok, name :: markers)

/-- Result of guard acquisition as observed by the caller. -/
inductive AcquireResult
  | ok
  | alreadyProcessing
  deriving DecidableEq

/-- set_transaction_processing (lines 56 to 60): touch the marker with the
implicit default exist_ok, mapping FileExistsError to
AlreadyProcessingError. -/
def set_transaction_processing (markers : List String) (tn : String) :
    AcquireResult × List String :=
  match pathTouch true markers tn with
  | (TouchOutcome.ok, m) => (AcquireResult.ok, m)
  | (TouchOutcome.fileExists, m) => (AcquireResult.alreadyProcessing, m)

/-- The marker set produced by touching a marker name. -/
def insertMarker (markers : List String) (tn : String) : List String :=
  if tn ∈ markers then markers else tn :: markers

/-- set_transaction_finished (lines 62 to 63): unlink the marker. -/
def set_transaction_finished (markers : List String) (tn : String) : List String :=
  markers.erase tn

/-- Path.glob of the tiff pattern: on a directory it yields the matching
entries, on a path that is not a directory it yields nothing. -/
def globTiff (isDir : Bool) (entries : List String) : List String :=
  if isDir then entries.filter matchesTiff else []

/-- Line 91: glob master_edited when it is a directory, else glob master. -/
def fileListOf (d : TransactionDirs) : List String :=
  if d.masterEditedIsDir then globTiff d.masterEditedIsDir d.masterEditedEntries
  else globTiff d.masterIsDir d.masterEntries

/-- collect_tiff_filepaths (lines 80 to 92): the chosen glob, sorted
ascending. -/
def collect_tiff_filepaths (d : TransactionDirs) : List String :=
  List.insertionSort (fun a b : String => a ≤ b) (fileListOf d)

/-- Modelled from the spec: the PDFWriter document assembler (spec section
4.5) is absent from src, so its append is modelled as recording the
(page, text) pairs in call order.  The loop of lines 71 to 75: for each
page extract text, upload it, and append to the writer; any failure
propagates and aborts the remaining pages. -/
def pagesLoop (env : Env) (acc : List (String × String)) :
    List String → List Ev × Except PyErr (List (String × String))
  | [] => ([], Except.ok acc)
  | p :: ps =>
    match env.extractOutcome p with
    | Except.error e => ([Ev.extract p], Except.error e)
    | Except.ok text =>
      if env.uploadOk p then
        (Ev.extract p :: Ev.upload p :: Ev.append p ::
            (pagesLoop env (acc ++ [(p, text)]) ps).1,
         (pagesLoop env (acc ++ [(p, text)]) ps).2)
      else ([Ev.extract p, Ev.upload p], Except.error (PyErr.publishError p))

/-- create_pdf (lines 65 to 77): build the output path, mkdir its parent
(FileNotFoundError when the transaction root does not exist), look up and
instantiate PDFWriter (NameError when the name does not resolve), collect
the source pages, run the page loop, and write the document. -/
def create_pdf (env : Env) (tn : String) : List Ev × Except PyErr String :=
  if env.rootDirExists tn then
    if resolvesInModule "PDFWriter" then
      match (pagesLoop env [] (collect_tiff_filepaths (env.dirs tn))).2 with
      | Except.error e =>
        (Ev.mkdir tn :: (pagesLoop env [] (collect_tiff_filepaths (env.dirs tn))).1,
         Except.error e)
      | Except.ok _ =>
        (Ev.mkdir tn :: ((pagesLoop env [] (collect_tiff_filepaths (env.dirs tn))).1
            ++ [Ev.pdfWrite tn]),
         Except.ok (tn ++ "/service_edited/" ++ tn ++ ".pdf"))
    else ([Ev.mkdir tn], Except.error (PyErr.nameError "PDFWriter"))
  else ([Ev.mkdir tn], Except.error (PyErr.fileNotFoundError (tn ++ "/service_edited")))

/-- The error create_pdf raises: FileNotFoundError from mkdir when the
transaction root is missing, otherwise NameError for PDFWriter. -/
def cpErr (env : Env) (tn : String) : PyErr :=
  if env.rootDirExists tn then PyErr.nameError "PDFWriter"
  else PyErr.fileNotFoundError (tn ++ "/service_edited")

/-- update_transaction_status (lines 150 to 158): build the per-record
route URL and call self.aeon_client.post; the attribute lookup fails
because AeonClient defines no post, so no HTTP request is issued. -/
def update_transaction_status (env : Env) (tn : String) :
    List Ev × Except PyErr Unit :=
  if aeonClientHasPost then
    ([Ev.httpPost ("/Requests/" ++ tn ++ "/route") env.destinationStatus],
     Except.ok ())
  else ([], Except.error (PyErr.attributeError "post"))

/-- The filtered collection URL of get_transactions_in_status (line 145). -/
def queryUrl (status : String) : String :=
  "/odata/Requests?$filter=photoduplicationstatus eq " ++ status

/-- The message logged for an exception by the generic handler. -/
def errMsg : PyErr → String
  | PyErr.nameError n => "name " ++ n ++ " is not defined"
  | PyErr.attributeError a => "AeonClient object has no attribute " ++ a
  | PyErr.typeError m => m
  | PyErr.fileNotFoundError p => "No such file or directory: " ++ p
  | PyErr.keyError k => "KeyError: " ++ k
  | PyErr.extractionError p => "extraction failed: " ++ p
  | PyErr.publishError p => "upload failed: " ++ p

/-- One iteration of the batch loop (lines 42 to 54): resolve the
transaction number (KeyError is caught by the generic handler), acquire the
guard (AlreadyProcessingError is caught and logged distinctly), run
create_pdf, the no-op optimize_pdf, update_transaction_status, and on full
success release the guard; any exception is caught, logged, and the loop
moves on. -/
def processTx (env : Env) (markers : List String) (tx : Tx) :
    List String × List Ev :=
  match txNumber tx with
  | none => (markers, [Ev.logError (errMsg (PyErr.keyError "transactionnumber"))])
  | some tn =>
    match set_transaction_processing markers tn with
    | (AcquireResult.alreadyProcessing, m1) =>
      (m1, [Ev.touch tn,
            Ev.logError ("Transaction " ++ tn ++ " is already processing, skipping.")])
    | (AcquireResult.ok, m1) =>
      match create_pdf env tn with
      | (evs, Except.error e) =>
        (m1, Ev.touch tn :: evs ++ [Ev.logError (errMsg e)])
      | (evs, Except.ok _) =>
        match update_transaction_status env tn with
        | (evs2, Except.error e) =>
          (m1, Ev.touch tn :: evs ++ evs2 ++ [Ev.logError (errMsg e)])
        | (evs2, Except.ok _) =>
          (set_transaction_finished m1 tn,
           Ev.touch tn :: evs ++ evs2 ++ [Ev.unlink tn])

/-- The for loop of handle_new_transactions (lines 42 to 54): the records
are processed one after another in list order, threading the guard-marker
state and concatenating the traces. -/
def processTransactions (env : Env) (markers : List String) :
    List Tx → List String × List Ev
  | [] => (markers, [])
  | t :: ts =>
    ((processTransactions env (processTx env markers t).1 ts).1,
     (processTx env markers t).2 ++
       (processTransactions env (processTx env markers t).1 ts).2)

/-- The per-record trace segments of a batch, in batch order, each segment
produced from the marker state left by the records before it. -/
def batchSegments (env : Env) (markers : List String) :
    List Tx → List (List Ev)
  | [] => []
  | t :: ts =>
    (processTx env markers t).2 :: batchSegments env (processTx env markers t).1 ts

/-- Concatenation of trace segments. -/
def flattenEvs : List (List Ev) → List Ev
  | [] => []
  | l :: ls => l ++ flattenEvs ls

/-- handle_new_transactions (lines 39 to 54): fetch the batch with an HTTP
GET against the filtered collection endpoint, then run the loop. -/
def handle_new_transactions (env : Env) (markers : List String) :
    List String × List Ev :=
  ((processTransactions env markers env.fetched).1,
   Ev.httpGet (queryUrl env.sourceStatus) ::
     (processTransactions env markers env.fetched).2)

/-- PdfCreator.__init__ (lines 34 to 37): the first statement calls
AeonClient with no arguments. -/
def pdfCreator_init : Except PyErr Unit :=
  match aeonClientInit [] with
  | Except.error e => Except.error e
  | Except.ok _ => Except.ok ()

/-- The process entry point (lines 161 to 162): construct a PdfCreator and
run handle_new_transactions; a construction error aborts the run before
any call is made. -/
def mainEntry (env : Env) (markers : List String) :
    List Ev × Except PyErr Unit :=
  match pdfCreator_init with
  | Except.error e => ([], Except.error e)
  | Except.ok _ => ((handle_new_transactions env markers).2, Except.ok ())

/-- Predicate for document-assembler append events. -/
def isAppend : Ev → Bool
  | Ev.append _ => true
  | _ => false

/-- Predicate for guard release events. -/
def isUnlink : Ev → Bool
  | Ev.unlink _ => true
  | _ => false

/-- Predicate for status-advance HTTP POST events. -/
def isHttpPost : Ev → Bool
  | Ev.httpPost _ _ => true
  | _ => false

/-- Example record with a mixed-case key, number T100. -/
def txEx : Tx := [("transactionNumber", "T100")]

/-- Example directories: master_edited present with two tiff pages and a
stray text file, master also present with a tiff page. -/
def dirsEx : TransactionDirs :=
  ⟨true, ["b.tiff", "a.tiff", "notes.txt"], true, ["z.tiff"]⟩

/-- Example environment: all roots exist, OCR and uploads succeed, the
fetched batch is the single record txEx. -/
def envEx : Env :=
  ⟨fun _ => true, fun _ => dirsEx, fun p => Except.ok ("text " ++ p),
   fun _ => true, "5", "6", [txEx]⟩

/-- Directories for the C4 evaluation: two tiff pages in master. -/
def dirsC4 : TransactionDirs := ⟨false, [], true, ["p1.tiff", "p2.tiff"]⟩

/-- Environment for the C4 evaluation. -/
def envC4 : Env :=
  ⟨fun _ => true, fun _ => dirsC4, fun p => Except.ok ("text " ++ p),
   fun _ => true, "5", "6", []⟩

/-- Record for the C6 evaluation, number T200. -/
def txC6 : Tx := [("TransactionNumber", "T200")]

/-- Directories for the C6 evaluation: zero source images. -/
def dirsC6 : TransactionDirs := ⟨false, [], true, []⟩

/-- Environment for the C6 evaluation. -/
def envC6 : Env :=
  ⟨fun _ => true, fun _ => dirsC6, fun p => Except.ok ("text " ++ p),
   fun _ => true, "5", "6", [txC6]⟩

/-- Directories for the C10 witness: master_edited exists but holds no
matching file, master holds a matching file. -/
def dirsC10 : TransactionDirs := ⟨true, ["notes.txt"], true, ["p1.tiff"]⟩

theorem resolvesPDFWriter_false : resolvesInModule "PDFWriter" = false := by decide

theorem set_transaction_processing_eq (markers : List String) (tn : String) :
    set_transaction_processing markers tn = (AcquireResult.ok, insertMarker markers tn) := by
  unfold set_transaction_processing pathTouch insertMarker
  by_cases h : tn ∈ markers <;> simp [h]

theorem create_pdf_eq (env : Env) (tn : String) :
    create_pdf env tn = ([Ev.mkdir tn], Except.error (cpErr env tn)) := by
  cases h : env.rootDirExists tn <;>
    simp [create_pdf, cpErr, resolvesPDFWriter_false, h]

theorem processTx_eq (env : Env) (markers : List String) (tx : Tx) (tn : String)
    (h : txNumber tx = some tn) :
    processTx env markers tx =
      (insertMarker markers tn,
       [Ev.touch tn, Ev.mkdir tn, Ev.logError (errMsg (cpErr env tn))]) := by
  simp only [processTx, h, set_transaction_processing_eq, create_pdf_eq]
  rfl

theorem processTx_cases (env : Env) (markers : List String) (tx : Tx) :
    processTx env markers tx =
      (markers, [Ev.logError (errMsg (PyErr.keyError "transactionnumber"))]) ∨
    ∃ tn, txNumber tx = some tn ∧
      processTx env markers tx =
        (insertMarker markers tn,
         [Ev.touch tn, Ev.mkdir tn, Ev.logError (errMsg (cpErr env tn))]) := by
  cases h : txNumber tx with
  | none => left; simp [processTx, h]
  | some tn => right; exact ⟨tn, rfl, processTx_eq env markers tx tn h⟩

theorem no_unlink_batch (env : Env) (markers : List String) (txs : List Tx)
    (tn : String) : Ev.unlink tn ∉ (processTransactions env markers txs).2 := by
  induction txs generalizing markers with
  | nil => simp [processTransactions]
  | cons t ts ih =>
    simp only [processTransactions, List.mem_append, not_or]
    refine ⟨?_, ih ((processTx env markers t).1)⟩
    rcases processTx_cases env markers t with h | ⟨tn2, _, h⟩ <;> rw [h] <;> simp

theorem no_post_batch (env : Env) (markers : List String) (txs : List Tx)
    (u s : String) : Ev.httpPost u s ∉ (processTransactions env markers txs).2 := by
  induction txs generalizing markers with
  | nil => simp [processTransactions]
  | cons t ts ih =>
    simp only [processTransactions, List.mem_append, not_or]
    refine ⟨?_, ih ((processTx env markers t).1)⟩
    rcases processTx_cases env markers t with h | ⟨tn2, _, h⟩ <;> rw [h] <;> simp

theorem mem_insertMarker_of_mem (markers : List String) (tn s : String)
    (h : s ∈ markers) : s ∈ insertMarker markers tn := by
  by_cases hm : tn ∈ markers <;> simp [insertMarker, hm, h]

theorem mem_insertMarker_self (markers : List String) (tn : String) :
    tn ∈ insertMarker markers tn := by
  by_cases hm : tn ∈ markers <;> simp [insertMarker, hm]

theorem processTx_markers_mono (env : Env) (markers : List String) (tx : Tx)
    (s : String) (h : s ∈ markers) : s ∈ (processTx env markers tx).1 := by
  rcases processTx_cases env markers tx with hc | ⟨tn, _, hc⟩ <;> rw [hc]
  · exact h
  · exact mem_insertMarker_of_mem _ _ _ h

theorem processTransactions_markers_mono (env : Env) (markers : List String)
    (txs : List Tx) (s : String) (h : s ∈ markers) :
    s ∈ (processTransactions env markers txs).1 := by
  induction txs generalizing markers with
  | nil => exact h
  | cons t ts ih => exact ih _ (processTx_markers_mono env markers t s h)

theorem touch_and_marker_batch (env : Env) (txs : List Tx) (tx : Tx)
    (tn : String) (h : txNumber tx = some tn) :
    ∀ markers, tx ∈ txs →
      tn ∈ (processTransactions env markers txs).1 ∧
      Ev.touch tn ∈ (processTransactions env markers txs).2 := by
  induction txs with
  | nil => intro markers htx; cases htx
  | cons t ts ih =>
    intro markers htx
    rcases List.mem_cons.mp htx with heq | htl
    · subst heq
      constructor
      · simp only [processTransactions]
        apply processTransactions_markers_mono
        rw [processTx_eq env markers tx tn h]
        exact mem_insertMarker_self _ _
      · simp only [processTransactions, List.mem_append]
        left
        rw [processTx_eq env markers tx tn h]
        simp
    · rcases ih ((processTx env markers t).1) htl with ⟨h1, h2⟩
      constructor
      · simp only [processTransactions]
        exact h1
      · simp only [processTransactions, List.mem_append]
        right
        exact h2

theorem trace_eq_flattenEvs (env : Env) (markers : List String) (txs : List Tx) :
    (processTransactions env markers txs).2 = flattenEvs (batchSegments env markers txs) := by
  induction txs generalizing markers with
  | nil => rfl
  | cons t ts ih => simp only [processTransactions, batchSegments, flattenEvs, ih]

theorem batchSegments_length (env : Env) (markers : List String) (txs : List Tx) :
    (batchSegments env markers txs).length = txs.length := by
  induction txs generalizing markers with
  | nil => rfl
  | cons t ts ih => simp only [batchSegments, List.length_cons, ih]

/-- Claim C1: guard acquisition can never fail, contrary to the claim and
to the intent of the except FileExistsError clause on lines 59 and 60:
Path.touch is called with the implicit default exist_ok, which succeeds
silently on an existing marker, so a second acquisition for the same
transaction number returns normally instead of raising
AlreadyProcessingError; the marker set is left unchanged with exactly one
marker. -/
theorem set_transaction_processing_never_raises_already :
    (∀ markers tn, (set_transaction_processing markers tn).1 = AcquireResult.ok) ∧
    set_transaction_processing ["T100"] "T100" = (AcquireResult.ok, ["T100"]) := by
  constructor
  · intro markers tn
    rw [set_transaction_processing_eq]
  · decide

/-- Claim C2: in every batch, for every record whose number resolves, the
guard is acquired and processing then fails inside create_pdf; the guard
marker is never released (no unlink event occurs anywhere and the marker is
still present in the final marker state), the status-advance POST is never
issued for any record, and every record of the batch, including those after
a failing one, is still attempted (its guard touch appears in the trace). -/
theorem failed_transaction_keeps_guard_and_skips_status_advance
    (env : Env) (markers : List String) (txs : List Tx) :
    (∀ tn, Ev.unlink tn ∉ (processTransactions env markers txs).2) ∧
    (∀ u s, Ev.httpPost u s ∉ (processTransactions env markers txs).2) ∧
    (∀ tx ∈ txs, ∀ tn, txNumber tx = some tn →
      (create_pdf env tn).2 = Except.error (cpErr env tn) ∧
      tn ∈ (processTransactions env markers txs).1 ∧
      Ev.touch tn ∈ (processTransactions env markers txs).2) :=
  ⟨fun tn => no_unlink_batch env markers txs tn,
   fun u s => no_post_batch env markers txs u s,
   fun tx htx tn h =>
     ⟨by rw [create_pdf_eq],
      (touch_and_marker_batch env txs tx tn h markers htx).1,
      (touch_and_marker_batch env txs tx tn h markers htx).2⟩⟩

/-- Witness for C2 at a concrete batch of one record. -/
theorem failed_transaction_keeps_guard_witness :
    (create_pdf envEx "T100").2 = Except.error (cpErr envEx "T100") ∧
    "T100" ∈ (processTransactions envEx [] [txEx]).1 ∧
    Ev.touch "T100" ∈ (processTransactions envEx [] [txEx]).2 :=
  (failed_transaction_keeps_guard_and_skips_status_advance envEx [] [txEx]).2.2
    txEx (by decide) "T100" (by decide)

/-- Claim C3: page collection returns a list sorted ascending; when
master_edited is a directory the result is exactly its matching entries
(master is ignored); when master_edited is not a directory the result is
exactly the master glob; and when neither glob yields a matching file the
result is the empty list. -/
theorem collect_tiff_filepaths_policy (d : TransactionDirs) :
    List.Sorted (fun a b : String => a ≤ b) (collect_tiff_filepaths d) ∧
    (d.masterEditedIsDir = true →
      List.Perm (collect_tiff_filepaths d) (d.masterEditedEntries.filter matchesTiff)) ∧
    (d.masterEditedIsDir = false →
      List.Perm (collect_tiff_filepaths d) (globTiff d.masterIsDir d.masterEntries)) ∧
    (globTiff d.masterEditedIsDir d.masterEditedEntries = [] →
      globTiff d.masterIsDir d.masterEntries = [] →
      collect_tiff_filepaths d = []) := by
  refine ⟨List.sorted_insertionSort _ _, ?_, ?_, ?_⟩
  · intro h
    have hf : fileListOf d = d.masterEditedEntries.filter matchesTiff := by
      simp [fileListOf, globTiff, h]
    unfold collect_tiff_filepaths
    rw [hf]
    exact List.perm_insertionSort _ _
  · intro h
    have hf : fileListOf d = globTiff d.masterIsDir d.masterEntries := by
      simp [fileListOf, h]
    unfold collect_tiff_filepaths
    rw [hf]
    exact List.perm_insertionSort _ _
  · intro h1 h2
    have hf : fileListOf d = [] := by
      unfold fileListOf
      cases hm : d.masterEditedIsDir
      · simpa using h2
      · rw [hm] at h1
        simpa using h1
    unfold collect_tiff_filepaths
    rw [hf]
    rfl

/-- Witness for C3: with master_edited present, the collection is a
permutation of the matching master_edited entries. -/
theorem collect_tiff_filepaths_policy_witness :
    List.Perm (collect_tiff_filepaths dirsEx) (dirsEx.masterEditedEntries.filter matchesTiff) :=
  (collect_tiff_filepaths_policy dirsEx).2.1 rfl

/-- Claim C4: for a transaction with two collected source images,
create_pdf raises NameError for PDFWriter before appending any page, so no
document with the two page/text pairs is produced. -/
theorem create_pdf_appends_no_pages :
    (collect_tiff_filepaths (envC4.dirs "T100")).length = 2 ∧
    (create_pdf envC4 "T100").2 = Except.error (PyErr.nameError "PDFWriter") ∧
    (create_pdf envC4 "T100").1.filter isAppend = [] := by
  refine ⟨?_, rfl, by decide⟩
  unfold collect_tiff_filepaths
  rw [List.length_insertionSort]
  decide

/-- Claim C5: update_transaction_status never issues an HTTP POST: the
attribute lookup of post on the AeonClient instance fails with
AttributeError because the class defines only get, so the call raises
before any request is made. -/
theorem update_transaction_status_raises_attribute_error (env : Env) (tn : String) :
    update_transaction_status env tn = ([], Except.error (PyErr.attributeError "post")) ∧
    aeonClientHasPost = false :=
  ⟨rfl, rfl⟩

/-- Claim C6: for a transaction with zero collected source images,
create_pdf still raises NameError for PDFWriter, so the pipeline does not
proceed to status advance or guard release: the record trace contains the
guard touch but no unlink and no POST event. -/
theorem zero_image_transaction_stalls_before_status_advance :
    collect_tiff_filepaths (envC6.dirs "T200") = [] ∧
    (create_pdf envC6 "T200").2 = Except.error (PyErr.nameError "PDFWriter") ∧
    (processTx envC6 [] txC6).2.filter (fun e => isUnlink e || isHttpPost e) = [] ∧
    Ev.touch "T200" ∈ (processTx envC6 [] txC6).2 :=
  ⟨by decide, rfl, by decide, by decide⟩

/-- Claim C7: the trace of handle_new_transactions is the fetch GET
followed by the concatenation, in batch order, of one complete segment per
fetched record, each segment produced from the marker state left by the
records before it; there is one segment per record, and every record whose
number resolves is attempted (its guard touch appears), so no record is
skipped or resequenced. -/
theorem batch_processed_in_fetched_order (env : Env) (markers : List String) :
    (handle_new_transactions env markers).2 =
      Ev.httpGet (queryUrl env.sourceStatus) ::
        flattenEvs (batchSegments env markers env.fetched) ∧
    (batchSegments env markers env.fetched).length = env.fetched.length ∧
    (∀ tx ∈ env.fetched, ∀ tn, txNumber tx = some tn →
      Ev.touch tn ∈ (processTransactions env markers env.fetched).2) := by
  refine ⟨?_, batchSegments_length env markers env.fetched, ?_⟩
  · show Ev.httpGet (queryUrl env.sourceStatus) ::
        (processTransactions env markers env.fetched).2 = _
    rw [trace_eq_flattenEvs]
  · intro tx htx tn h
    exact (touch_and_marker_batch env env.fetched tx tn h markers htx).2

/-- Witness for C7 at a concrete batch of one record. -/
theorem batch_order_witness :
    Ev.touch "T100" ∈ (processTransactions envEx [] envEx.fetched).2 :=
  (batch_processed_in_fetched_order envEx []).2.2 txEx (by decide) "T100" (by decide)

/-- Claim C8: the entry point always fails during PdfCreator construction:
AeonClient is instantiated with no arguments while its constructor requires
baseurl and access_key, so the run raises TypeError with an empty trace,
before any fetch or record processing; with the two required arguments the
constructor would succeed. -/
theorem entry_point_construction_always_fails (env : Env) (markers : List String) :
    mainEntry env markers =
      ([], Except.error (PyErr.typeError
        "AeonClient.__init__ missing required positional arguments: baseurl and access_key")) ∧
    (∀ baseurl access_key, aeonClientInit [baseurl, access_key] = Except.ok ()) :=
  ⟨rfl, fun _ _ => rfl⟩

/-- Claim C9: the name PDFWriter resolves nowhere in the module, create_pdf
always fails before any page is extracted, uploaded or appended (its trace
contains no extract, upload or append event), and whenever the transaction
root directory exists the error is precisely the NameError for PDFWriter. -/
theorem create_pdf_name_error_before_any_page (env : Env) (tn : String) :
    resolvesInModule "PDFWriter" = false ∧
    (create_pdf env tn).2 = Except.error (cpErr env tn) ∧
    (∀ p, Ev.extract p ∉ (create_pdf env tn).1 ∧
      Ev.upload p ∉ (create_pdf env tn).1 ∧
      Ev.append p ∉ (create_pdf env tn).1) ∧
    (env.rootDirExists tn = true →
      (create_pdf env tn).2 = Except.error (PyErr.nameError "PDFWriter")) := by
  have h := create_pdf_eq env tn
  refine ⟨by decide, by rw [h], ?_, ?_⟩
  · intro p
    rw [h]
    refine ⟨?_, ?_, ?_⟩ <;> simp
  · intro hr
    rw [h]
    simp [cpErr, hr]

/-- Witness for C9 at a concrete transaction whose root exists. -/
theorem create_pdf_name_error_witness :
    (create_pdf envEx "T100").2 = Except.error (PyErr.nameError "PDFWriter") :=
  (create_pdf_name_error_before_any_page envEx "T100").2.2.2 rfl

/-- Claim C10: when master_edited exists as a directory but contains no
matching image file, the collection is empty regardless of the contents of
master: presence of the directory, not non-emptiness, decides the branch. -/
theorem collect_empty_master_edited_ignores_master (d : TransactionDirs)
    (h1 : d.masterEditedIsDir = true)
    (h2 : d.masterEditedEntries.filter matchesTiff = []) :
    collect_tiff_filepaths d = [] := by
  have hf : fileListOf d = [] := by
    unfold fileListOf
    rw [h1]
    simpa [globTiff] using h2
  unfold collect_tiff_filepaths
  rw [hf]
  rfl

/-- Witness for C10: master_edited holds only a text file while master
holds a tiff page, and the collection is empty. -/
theorem collect_empty_master_edited_witness :
    dirsC10.masterEntries.filter matchesTiff ≠ [] ∧
    collect_tiff_filepaths dirsC10 = [] :=
  ⟨by decide, collect_empty_master_edited_ignores_master dirsC10 rfl (by decide)⟩

end CreatePdf
